import Mathlib

set_option maxRecDepth 100000

/-!
Shallow embedding of the Clawbot session supervisor (claude.py) and proofs
about its session lifecycle, permission broker, output aggregation and
routing logic.  Python dicts are modelled as insertion-ordered association
lists, machine state as an explicit record, and each handler as a pure
function from state (plus inputs such as the current time and freshly drawn
uuids) to state and an observable result.
-/

namespace Clawbot

/-- Association list lookup, modelling Python dict indexing.  The first
binding for the key wins; all states built by the operations below keep keys
unique, matching dict semantics. -/
def alookup {α β : Type} [DecidableEq α] (k : α) : List (α × β) → Option β
  | [] => none
  | (a, b) :: t => if a = k then some b else alookup k t

/-- Association list update, modelling Python dict assignment: an existing
binding is replaced in place (dicts keep the original insertion position),
a new key is appended at the end. -/
def aupsert {α β : Type} [DecidableEq α] (k : α) (v : β) : List (α × β) → List (α × β)
  | [] => [(k, v)]
  | (a, b) :: t => if a = k then (a, v) :: t else (a, b) :: aupsert k v t

/-- Association list deletion, modelling Python del dict[key]. -/
def aremove {α β : Type} [DecidableEq α] (k : α) : List (α × β) → List (α × β)
  | [] => []
  | (a, b) :: t => if a = k then t else (a, b) :: aremove k t

/-- Python list.remove: removes the first occurrence of the element; the
ValueError raised when the element is absent is caught and ignored in the
source, so absence is a no-op here. -/
def removeFirst {α : Type} [DecidableEq α] (x : α) : List α → List α
  | [] => []
  | a :: t => if a = x then t else a :: removeFirst x t

/-- Python str.isdigit as used on operator replies: nonempty and made of
decimal digits. -/
def isDigits (s : String) : Bool :=
  !s.data.isEmpty && s.data.all Char.isDigit

/-- Python int() applied to a digit string: its decimal value. -/
def digitsToNat (s : String) : Nat :=
  s.data.foldl (fun a c => a * 10 + (c.toNat - '0'.toNat)) 0

/-- Python str.strip(): drop whitespace from both ends. -/
def pyStrip (s : String) : String :=
  String.mk (((s.data.dropWhile Char.isWhitespace).reverse.dropWhile Char.isWhitespace).reverse)

/-- Python s.split(chr(32), 1): split at the first space only. -/
def splitOnceAux (acc : List Char) : List Char → List String
  | [] => [String.mk acc.reverse]
  | c :: cs => if c = ' ' then [String.mk acc.reverse, String.mk cs] else splitOnceAux (c :: acc) cs

def pySplitOnce (s : String) : List String :=
  splitOnceAux [] s.data

/-- Python s.split(chr(32), 2): split at the first two spaces. -/
def pySplitTwice (s : String) : List String :=
  match pySplitOnce s with
  | [a, rest] => a :: pySplitOnce rest
  | l => l

/-! Character classes of the ANSI-escape regex used in handle_output_chunk. -/

def csiParam (c : Char) : Bool := '0' ≤ c && c ≤ '?'
def csiInter (c : Char) : Bool := ' ' ≤ c && c ≤ '/'
def csiFinal (c : Char) : Bool := '@' ≤ c && c ≤ '~'
def escSingle (c : Char) : Bool := ('@' ≤ c && c ≤ 'Z') || ('\\' ≤ c && c ≤ '_')

/-- After an ESC [ introducer: any run of parameter bytes, then any run of
intermediate bytes, then exactly one final byte.  Returns the input remaining
after the sequence when it matches.  (All three classes are disjoint, so the
greedy scan agrees with the regex engine.) -/
def matchCsiTail (ds : List Char) : Option (List Char) :=
  match (ds.dropWhile csiParam).dropWhile csiInter with
  | e :: es => if csiFinal e then some es else none
  | [] => none

/-- Worker for stripAnsi.  The fuel argument (at least the input length on
every call, since each step consumes at least one character) makes the
recursion structural, so that the function evaluates inside the kernel. -/
def stripAnsiGo : Nat → List Char → List Char
  | 0, l => l
  | _ + 1, [] => []
  | fuel + 1, c :: cs =>
    if c = '\x1B' then
      match cs with
      | [] => [c]
      | d :: ds =>
        if d = '[' then
          match matchCsiTail ds with
          | some es => stripAnsiGo fuel es
          | none => c :: stripAnsiGo fuel (d :: ds)
        else if escSingle d then stripAnsiGo fuel ds
        else c :: stripAnsiGo fuel (d :: ds)
    else c :: stripAnsiGo fuel cs

/-- Model of the re.sub removing ANSI escape sequences (pattern
ESC ([@-Z backslash-to-underscore] | CSI)): leftmost nonoverlapping matches
are deleted; an ESC that starts no match is kept and scanning resumes at the
next character, exactly as re.sub does. -/
def stripAnsi (l : List Char) : List Char :=
  stripAnsiGo l.length l

/-! Permission-prompt detection (the ordered regex table in
_check_for_permission_prompt).  Each pattern is a literal, then a nonempty
greedy run of a character class, then for some patterns a single closing
character that is outside the class (so greedy matching is exact). -/

/-- Word or whitespace characters, the regex class backslash-w backslash-s. -/
def wordOrSpace (c : Char) : Bool := c.isAlphanum || c = '_' || c.isWhitespace

/-- Any character other than a double quote. -/
def notQuote (c : Char) : Bool := c != '"'

/-- Try one prompt pattern anchored at the start of the input; returns the
whole matched text (group 0). -/
def matchPromptAt (lit : List Char) (p : Char → Bool) (close : Option Char)
    (s : List Char) : Option (List Char) :=
  if lit.isPrefixOf s then
    let rest := s.drop lit.length
    let run := rest.takeWhile p
    if run.isEmpty then none
    else
      match close with
      | none => some (lit ++ run)
      | some c =>
        match rest.dropWhile p with
        | d :: _ => if d = c then some (lit ++ run ++ [c]) else none
        | [] => none
  else none

/-- re.search: try every start position from the left; first success wins. -/
def searchPrompt (lit : List Char) (p : Char → Bool) (close : Option Char) :
    List Char → Option (List Char)
  | [] => none
  | c :: cs =>
    match matchPromptAt lit p close (c :: cs) with
    | some g => some g
    | none => searchPrompt lit p close cs

/-- The ordered pattern table of _check_for_permission_prompt. -/
def promptPatterns : List (List Char × (Char → Bool) × Option Char) :=
  [ ("Allow access to ".data, wordOrSpace, some '?'),
    ("Permission required: ".data, wordOrSpace, none),
    ("Read file \"".data, notQuote, some '"'),
    ("Write to file \"".data, notQuote, some '"'),
    ("Execute command ".data, wordOrSpace, none),
    ("Access to ".data, wordOrSpace, none) ]

/-- First pattern that matches anywhere in the chunk gives the summary. -/
def detectPrompt (text : String) : Option String :=
  (promptPatterns.findSome? (fun pat => searchPrompt pat.1 pat.2.1 pat.2.2 text.data)).map
    (fun l => String.mk l)

/-! Binding-token extraction (extract_session_id / extract_request_id). -/

/-- Leftmost-match semantics of re.search for a pattern of the shape
tag ( one or more non-square-bracket-close characters ) close-bracket:
scan start positions left to right; at each position require the literal tag,
then a nonempty run of characters other than a closing square bracket, then
the closing square bracket itself; return the captured run. -/
def captureAfter (tag : List Char) : List Char → Option (List Char)
  | [] => none
  | c :: cs =>
    if tag.isPrefixOf (c :: cs) then
      let rest := (c :: cs).drop tag.length
      let cap := rest.takeWhile (fun x => x != ']')
      if cap.isEmpty then captureAfter tag cs
      else if (rest.dropWhile (fun x => x != ']')).isEmpty then captureAfter tag cs
      else some cap
    else captureAfter tag cs

/-- Python substring containment (the in operator on str). -/
def containsSub (needle : List Char) : List Char → Bool
  | [] => needle.isEmpty
  | c :: cs => needle.isPrefixOf (c :: cs) || containsSub needle cs

def extractSessionId (text : String) : Option String :=
  (captureAfter "[SID:".data text.data).map (fun l => String.mk l)

def extractRequestId (text : String) : Option String :=
  (captureAfter "[RID:".data text.data).map (fun l => String.mk l)

/-! Configuration (environment defaults from the top of claude.py). -/

def OUTPUT_MAX_CHARS : Nat := 3500
def OUTPUT_FLUSH_MS : Nat := 200
def PERMISSION_TIMEOUT_SEC : Nat := 300
def STRIP_ANSI : Bool := true

/-- is_authorized: an empty allowlist admits everyone, otherwise the decimal
rendering of the numeric operator id must be listed. -/
def isAuthorized (allowed : List String) (user_id : Nat) : Bool :=
  if allowed.isEmpty then true else allowed.contains (toString user_id)

/-! Data model (the dataclasses of claude.py).  Timestamps are modelled as
naturals handed in by the caller where the source calls time.time(). -/

structure Session where
  session_id : String
  command : String
  cwd : String
  env_summary : List (String × String)
  state : String
  start_time : Nat
  end_time : Option Nat := none
  exit_code : Option Int := none
  duration_ms : Option Nat := none
  pid : Option Nat := none
  pty_handle : Option String := none
  active_claim_owner : Option Nat := none
deriving DecidableEq, Repr

structure PermOption where
  code : Nat
  label : String
deriving DecidableEq, Repr

/-- The option set installed by PermissionRequest.post-init when none is
given: 1 Allow, 2 Allow once, 3 Deny. -/
def defaultOptions : List PermOption :=
  [⟨1, "Allow"⟩, ⟨2, "Allow once"⟩, ⟨3, "Deny"⟩]

structure PermissionRequest where
  request_id : String
  session_id : String
  category : String
  summary : String
  details : Option String := none
  options : List PermOption := defaultOptions
  default : Nat := 3
  timeout_sec : Nat := 300
  created_at : Nat
  resolved : Bool := false
  decision_code : Option Nat := none
  decided_by : Option String := none
  decided_at : Option Nat := none
deriving DecidableEq, Repr

def optionCodes (req : PermissionRequest) : List Nat :=
  req.options.map (fun o => o.code)

structure AuditEvent where
  event : String
  session_id : String
  user_id : String
  username : String
  timestamp : Nat
  bytes_len : Nat := 0
  details : List (String × String) := []
deriving DecidableEq, Repr

/-- The mutable maps of the CLAUDE object.  pty_alive models pty_processes:
presence of a key is membership in the dict, the boolean is isalive(). -/
structure CState where
  sessions : List (String × Session) := []
  permission_requests : List (String × PermissionRequest) := []
  pending_requests : List (String × List String) := []
  output_buffers : List (String × List String) := []
  claimed_sessions : List (Nat × String) := []
  pty_alive : List (String × Bool) := []
  audit_log : List AuditEvent := []
deriving DecidableEq, Repr

/-! Session registry operations. -/

/-- create_session: allocate the record in state CREATED and register empty
buffer and pending-request state (the uuid is passed in). -/
def createSession (st : CState) (session_id command cwd : String)
    (env : List (String × String)) (now : Nat) : CState :=
  let s : Session := { session_id := session_id, command := command, cwd := cwd,
                       env_summary := env, state := "CREATED", start_time := now }
  { st with sessions := aupsert session_id s st.sessions,
            output_buffers := aupsert session_id [] st.output_buffers,
            pending_requests := aupsert session_id [] st.pending_requests }

/-- start_session when pexpect.spawn succeeds: the state is set to STARTING
on entry and to RUNNING once the process is attached; pid and the pty handle
are recorded and the read loop begins (pty_alive true). -/
def startSessionOk (st : CState) (session_id : String) (pid : Nat) : CState :=
  match alookup session_id st.sessions with
  | none => st
  | some s =>
    let s' := { s with state := "RUNNING", pid := some pid, pty_handle := some "pty" }
    { st with sessions := aupsert session_id s' st.sessions,
              pty_alive := aupsert session_id true st.pty_alive }

/-- start_session when pexpect.spawn raises: state STARTING then FAILED with
end_time and duration set, send_session_end receives the FAILED record, and
the session is deleted from the live maps.  Returns the record sent. -/
def startSessionFail (st : CState) (session_id : String) (now : Nat) :
    CState × Option Session :=
  match alookup session_id st.sessions with
  | none => (st, none)
  | some s =>
    let s' := { s with
                  state := "FAILED", end_time := some now,
                  duration_ms := some ((now - s.start_time) * 1000) }
    ({ st with sessions := aremove session_id st.sessions,
               pty_alive := aremove session_id st.pty_alive }, some s')

/-- The cleanup block at the end of read_pty_output, entered when the PTY
loop ends (process exit or EOF): any state other than COMPLETED and FAILED is
set to COMPLETED with end_time and duration, send_session_end receives that
record, and all per-session maps are cleared.  Returns the record sent. -/
def readPtyCompletion (st : CState) (session_id : String) (now : Nat) :
    CState × Option Session :=
  match alookup session_id st.sessions with
  | none => (st, none)
  | some s =>
    let sent :=
      if s.state ≠ "COMPLETED" ∧ s.state ≠ "FAILED" then
        some { s with
                 state := "COMPLETED", end_time := some now,
                 duration_ms := some ((now - s.start_time) * 1000) }
      else none
    ({ st with pty_alive := aremove session_id st.pty_alive,
               output_buffers := aremove session_id st.output_buffers,
               pending_requests := aremove session_id st.pending_requests,
               sessions := aremove session_id st.sessions }, sent)

/-- Observable outcome of forward_to_session. -/
inductive ForwardResult where
  | noPty
  | deadCleanup (final : Option Session)
  | sent
deriving DecidableEq, Repr

/-- forward_to_session: write a line of operator text into a session's PTY.
A session whose PTY is missing is reported (and a stale terminal record is
evicted); a dead PTY forces the session to FAILED and evicts it; otherwise
an input.forwarded audit event is appended and the line is sent. -/
def forwardToSession (st : CState) (session_id text : String) (user_id : Nat)
    (now : Nat) : CState × ForwardResult :=
  match alookup session_id st.pty_alive with
  | none =>
    match alookup session_id st.sessions with
    | some s =>
      if s.state = "FAILED" ∨ s.state = "COMPLETED" ∨ s.state = "CANCELLED" then
        ({ st with sessions := aremove session_id st.sessions }, .noPty)
      else (st, .noPty)
    | none => (st, .noPty)
  | some alive =>
    if alive = false then
      match alookup session_id st.sessions with
      | some s =>
        let s' := { s with
                      state := "FAILED", end_time := some now,
                      duration_ms := some ((now - s.start_time) * 1000) }
        ({ st with pty_alive := aremove session_id st.pty_alive,
                   sessions := aremove session_id st.sessions }, .deadCleanup (some s'))
      | none =>
        ({ st with pty_alive := aremove session_id st.pty_alive,
                   sessions := aremove session_id st.sessions }, .deadCleanup none)
    else
      let ev : AuditEvent := { event := "input.forwarded", session_id := session_id,
                               user_id := toString user_id, username := "",
                               timestamp := now, bytes_len := text.utf8ByteSize }
      ({ st with audit_log := st.audit_log ++ [ev] }, .sent)

/-! Permission broker operations. -/

/-- The prompt text built by send_permission_request (the f-string, with the
machine-parseable RID and SID tokens). -/
def promptText (request_id session_id summary : String) : String :=
  "\n🛡️ Permission request [RID:" ++ request_id ++ "][SID:" ++ session_id ++
  "]\n\n" ++ summary ++ "\n\nOptions:\n1) Allow\n2) Allow once\n3) Deny (default)\n"

/-- The characters of the prompt following the SID token's closing bracket
(blank line, summary, options menu). -/
def promptTail (summary : String) : List Char :=
  "\n\n".data ++ (summary.data ++
    "\n\nOptions:\n1) Allow\n2) Allow once\n3) Deny (default)\n".data)

/-- send_permission_request: allocate the request (fresh uuid passed in),
store it, append it to its session's pending FIFO, and return the prompt
text delivered to the chat. -/
def createPermissionRequest (st : CState) (request_id session_id category summary : String)
    (now : Nat) : CState × String :=
  let req : PermissionRequest := { request_id := request_id, session_id := session_id,
                                   category := category, summary := summary,
                                   created_at := now }
  let pend := (alookup session_id st.pending_requests).getD []
  ({ st with permission_requests := aupsert request_id req st.permission_requests,
             pending_requests := aupsert session_id (pend ++ [request_id]) st.pending_requests },
   promptText request_id session_id summary)

/-- resolve_permission_request: unconditionally stamps the decision onto the
request (there is no check of the resolved flag in the source), appends a
permission.resolve audit event, forwards the decision line to the PTY (an
external effect), and removes the id from its session's pending FIFO. -/
def resolvePermissionRequest (st : CState) (request_id : String) (decision_code : Nat)
    (user_id : Nat) (now : Nat) : CState :=
  match alookup request_id st.permission_requests with
  | none => st
  | some req =>
    let req' := { req with
                    resolved := true, decision_code := some decision_code,
                    decided_by := some (toString user_id), decided_at := some now }
    let ev : AuditEvent := { event := "permission.resolve", session_id := req.session_id,
                             user_id := toString user_id, username := "", timestamp := now,
                             details := [("request_id", request_id),
                                         ("decision", toString decision_code)] }
    let st' := { st with
                   permission_requests := aupsert request_id req' st.permission_requests,
                   audit_log := st.audit_log ++ [ev] }
    match alookup req.session_id st'.pending_requests with
    | none => st'
    | some pend =>
      { st' with pending_requests :=
          aupsert req.session_id (removeFirst request_id pend) st'.pending_requests }

/-- Observable outcome of handle_reply. -/
inductive RAction where
  | unauthorized
  | permBadReply
  | permResolved (request_id : String) (code : Nat)
  | noPending
  | forwarded (session_id : String) (text : String)
  | ambiguous
  | noActive
deriving DecidableEq, Repr

/-- handle_permission_reply: a digit reply resolves the bound request with
that code (no option-set validation on this path); anything else is refused
with a usage message. -/
def handlePermissionReply (st : CState) (request_id : String) (user_id : Nat)
    (text : String) (now : Nat) : CState × RAction :=
  if isDigits text = false then (st, .permBadReply)
  else (resolvePermissionRequest st request_id (digitsToNat text) user_id now,
        .permResolved request_id (digitsToNat text))

/-- The reply-to guard of handle_reply: the replied-to text must contain the
words Permission request and a RID token naming a known request. -/
def rtoPermTarget (st : CState) (reply_to : Option String) : Option String :=
  match reply_to with
  | none => none
  | some t =>
    if containsSub "Permission request".data t.data then
      match extractRequestId t with
      | some rid => if (alookup rid st.permission_requests).isSome then some rid else none
      | none => none
    else none

/-- Eligibility of one request for the bare-numeric fallback scan: its id is
queued in its session's pending FIFO, it is unresolved, and its option set
contains the offered code. -/
def bareEligible (st : CState) (n : Nat) (rid : String) (req : PermissionRequest) : Bool :=
  (match alookup req.session_id st.pending_requests with
   | some pend => pend.contains rid
   | none => false) && !req.resolved && (optionCodes req).contains n

/-- The bare-numeric scan of handle_reply: first eligible request in the
insertion (creation) order of permission_requests, across all sessions. -/
def findBareTarget (st : CState) (n : Nat) : Option String :=
  st.permission_requests.findSome? (fun p => if bareEligible st n p.1 p.2 then some p.1 else none)

/-- Reply-to session binding used by the router (extract_session_id applied
to the replied-to text, when there is one). -/
def rtoSid (reply_to : Option String) : Option String :=
  match reply_to with
  | some t => extractSessionId t
  | none => none

/-- Sessions in an active state, in registry order (auto-routing). -/
def activeSessions (st : CState) : List String :=
  (st.sessions.filter (fun p => p.2.state = "RUNNING" ∨ p.2.state = "WAITING_PERMISSION")).map
    (fun p => p.1)

/-- handle_reply: authorization gate, then the reply-to permission path, then
the bare-numeric fallback, then free-text routing by reply-to binding, claim
map, and auto-route. -/
def handleReply (allowed : List String) (st : CState) (user_id : Nat) (text : String)
    (reply_to : Option String) (now : Nat) : CState × RAction :=
  if isAuthorized allowed user_id = false then (st, .unauthorized)
  else
    match rtoPermTarget st reply_to with
    | some rid => handlePermissionReply st rid user_id text now
    | none =>
      if isDigits text then
        match findBareTarget st (digitsToNat text) with
        | some rid =>
          (resolvePermissionRequest st rid (digitsToNat text) user_id now,
           .permResolved rid (digitsToNat text))
        | none => (st, .noPending)
      else
        let target :=
          match rtoSid reply_to with
          | some sid => some sid
          | none => alookup user_id st.claimed_sessions
        match target with
        | some sid => (st, .forwarded sid text)
        | none =>
          match activeSessions st with
          | [sid] => (st, .forwarded sid text)
          | [] => (st, .noActive)
          | _ => (st, .ambiguous)

/-! Output aggregator. -/

/-- Effects of one handle_output_chunk call besides the state update. -/
structure ChunkOut where
  immediate : Option String := none
  timerRestart : Bool := false
  prompt : Option String := none
deriving DecidableEq, Repr

/-- handle_output_chunk: strip ANSI sequences, run prompt detection on stdout
chunks (a fresh request uuid is passed in for that case), append the chunk to
the session's buffer; stderr is sent immediately and does not touch the
debounce timer, stdout cancels and restarts the debounce timer. -/
def handleOutputChunk (st : CState) (session_id stream text fresh_rid : String)
    (now : Nat) : CState × ChunkOut :=
  let text' := if STRIP_ANSI then String.mk (stripAnsi text.data) else text
  let stPrompt :=
    if stream = "stdout" then
      match detectPrompt text' with
      | some summary =>
        let r := createPermissionRequest st fresh_rid session_id "filesystem" summary now
        (r.1, some r.2)
      | none => (st, (none : Option String))
    else (st, none)
  let buf := (alookup session_id stPrompt.1.output_buffers).getD []
  let st' := { stPrompt.1 with
               output_buffers := aupsert session_id (buf ++ [text']) stPrompt.1.output_buffers }
  if stream = "stderr" then
    (st', { immediate := some text', prompt := stPrompt.2 })
  else
    (st', { timerRestart := true, prompt := stPrompt.2 })

/-- flush_output: an absent or empty buffer is a silent no-op; otherwise the
chunks joined by newline are handed to send_output_chunk (returned here) and
the buffer is cleared. -/
def flushOutput (st : CState) (session_id : String) : CState × Option String :=
  match alookup session_id st.output_buffers with
  | none => (st, none)
  | some [] => (st, none)
  | some chunks =>
    ({ st with output_buffers := aupsert session_id [] st.output_buffers },
     some (String.intercalate "\n" chunks))

/-- Python str.upper() on the ASCII stream names. -/
def pyUpper (s : String) : String :=
  String.mk (s.data.map Char.toUpper)

/-- The message prefix formatting of send_output_chunk. -/
def formatChunk (session_id stream text : String) : String :=
  "[SID:" ++ session_id ++ "] " ++ pyUpper stream ++ ": " ++ text

/-- The length cap of send_output_chunk: text longer than the configured
maximum is cut to maximum minus ten characters and a truncation marker is
appended. -/
def truncateForSend (t : String) : String :=
  if t.length > OUTPUT_MAX_CHARS then
    String.mk (t.data.take (OUTPUT_MAX_CHARS - 10)) ++ " [TRUNCATED]"
  else t

/-- send_output_chunk: the text actually posted to the chat for a chunk. -/
def sendOutputText (session_id stream text : String) : String :=
  truncateForSend (formatChunk session_id stream text)

/-! Command handlers (the Telegram command surface). -/

/-- start_command replies unconditionally: it has no authorization check. -/
def startCommand (st : CState) (user_id : Nat) : CState × String :=
  (st, "CLAUDE bot is running! Send numeric replies to permission requests.")

/-- The help_command text (the triple-quoted literal, verbatim). -/
def helpText : String :=
  "\nCLAUDE - Claude Code Session Reporter & Numeric Permission Controller\n\nCommands:\n/status - List active sessions\n/sessions - List all sessions\n/send <sid> <text> - Send text to a session\n/claim <sid> - Claim a session for auto-forwarding\n/release - Release claimed session\n/cancel <sid> - Cancel a session\n/keys <sid> CTRL_C - Send Ctrl+C to a session\n/keys <sid> CTRL_D - Send Ctrl+D to a session\n/help - Show this help message\n\nTo respond to permission requests, reply with:\n1 - Allow\n2 - Allow once\n3 - Deny (default)\n        "

/-- help_command replies unconditionally: it has no authorization check. -/
def helpCommand (st : CState) (user_id : Nat) : CState × String :=
  (st, helpText)

def statusCommand (allowed : List String) (st : CState) (user_id : Nat) : CState × String :=
  if isAuthorized allowed user_id = false then (st, "Unauthorized")
  else (st, st.sessions.foldl (fun acc p => acc ++ "  " ++ p.1 ++ ": " ++ p.2.state ++ "\n")
              "Active sessions:\n")

def sessionsCommand (allowed : List String) (st : CState) (user_id : Nat) : CState × String :=
  if isAuthorized allowed user_id = false then (st, "Unauthorized")
  else (st, st.sessions.foldl
              (fun acc p => acc ++ "  " ++ p.1 ++ ": " ++ p.2.state ++ " - " ++ p.2.command ++ "\n")
              "All sessions:\n")

def sendCommand (allowed : List String) (st : CState) (user_id : Nat) (text : String)
    (now : Nat) : CState × String :=
  if isAuthorized allowed user_id = false then (st, "Unauthorized")
  else
    match pySplitTwice (pyStrip text) with
    | _ :: sid :: msg :: _ =>
      match alookup sid st.sessions with
      | none => (st, "Session " ++ sid ++ " not found")
      | some s =>
        if (alookup sid st.pty_alive).isNone then
          (st, "Session " ++ sid ++ " exists but is not properly initialized for input. State: "
               ++ s.state)
        else
          ((forwardToSession st sid msg user_id now).1, "Sent to session " ++ sid)
    | _ => (st, "Usage: /send <sid> <text>")

def claimCommand (allowed : List String) (st : CState) (user_id : Nat) (text : String) :
    CState × String :=
  if isAuthorized allowed user_id = false then (st, "Unauthorized")
  else
    match pySplitOnce (pyStrip text) with
    | _ :: sid :: _ =>
      match alookup sid st.sessions with
      | none => (st, "Session " ++ sid ++ " not found")
      | some _ =>
        ({ st with claimed_sessions := aupsert user_id sid st.claimed_sessions },
         "Claimed session " ++ sid)
    | _ => (st, "Usage: /claim <sid>")

def releaseCommand (allowed : List String) (st : CState) (user_id : Nat) : CState × String :=
  if isAuthorized allowed user_id = false then (st, "Unauthorized")
  else
    match alookup user_id st.claimed_sessions with
    | some sid =>
      ({ st with claimed_sessions := aremove user_id st.claimed_sessions },
       "Released session " ++ sid)
    | none => (st, "No session claimed")

def cancelCommand (allowed : List String) (st : CState) (user_id : Nat) (text : String) :
    CState × String :=
  if isAuthorized allowed user_id = false then (st, "Unauthorized")
  else
    match pySplitOnce (pyStrip text) with
    | _ :: sid :: _ =>
      match alookup sid st.sessions with
      | none => (st, "Session " ++ sid ++ " not found")
      | some s =>
        if s.state = "RUNNING" ∨ s.state = "WAITING_PERMISSION" then
          ({ st with sessions := aupsert sid { s with state := "CANCELLED" } st.sessions },
           "Cancelled session " ++ sid)
        else (st, "Session " ++ sid ++ " is not running or waiting for permission")
    | _ => (st, "Usage: /cancel <sid>")

/-- keys_command; the CTRL_C and CTRL_D branches send a signal to the PTY (an
external effect) and produce no reply, hence the Option. -/
def keysCommand (allowed : List String) (st : CState) (user_id : Nat) (text : String) :
    CState × Option String :=
  if isAuthorized allowed user_id = false then (st, some "Unauthorized")
  else
    match pySplitTwice (pyStrip text) with
    | [_] => (st, some "Usage: /keys <sid> [CTRL_C|CTRL_D]")
    | _ :: sid :: rest =>
      match alookup sid st.sessions with
      | none => (st, some ("Session " ++ sid ++ " not found"))
      | some _ =>
        match rest with
        | key :: _ =>
          if key.toUpper = "CTRL_C" then (st, none)
          else if key.toUpper = "CTRL_D" then (st, none)
          else (st, some "Unknown key. Use CTRL_C or CTRL_D")
        | [] => (st, some "Usage: /keys <sid> [CTRL_C|CTRL_D]")
    | [] => (st, some "Usage: /keys <sid> [CTRL_C|CTRL_D]")

/-! Specification-side definitions used to state the claims. -/

/-- The legal lifecycle edge set claimed in the specification: CREATED to
STARTING to RUNNING to one of COMPLETED, FAILED, CANCELLED. -/
def legalEdge (a b : String) : Bool :=
  (a == "CREATED" && b == "STARTING") || (a == "STARTING" && b == "RUNNING") ||
  (a == "RUNNING" && (b == "COMPLETED" || b == "FAILED" || b == "CANCELLED"))

/-- The pending-queue invariant of the data model: every session's pending
FIFO is duplicate-free and holds only ids of stored, unresolved requests
belonging to that session. -/
def pendingInv (st : CState) : Prop :=
  ∀ sid pend, alookup sid st.pending_requests = some pend →
    pend.Nodup ∧ ∀ rid ∈ pend, ∃ req, alookup rid st.permission_requests = some req ∧
      req.resolved = false ∧ req.session_id = sid

/-- Characters of a uuid4 rendering: lowercase hexadecimal digits and dash. -/
def uuidChar (c : Char) : Bool := c.isDigit || ('a' ≤ c && c ≤ 'f') || c = '-'

/-- Shape of the uuid strings drawn for request and session ids. -/
def uuidLike (s : String) : Bool := !s.data.isEmpty && s.data.all uuidChar

/-! Helper lemmas on association lists and list scans. -/

theorem lookup_aupsert_self {α β : Type} [DecidableEq α] (k : α) (v : β) (l : List (α × β)) :
    alookup k (aupsert k v l) = some v := by
  induction l with
  | nil => simp [aupsert, alookup]
  | cons p t ih =>
    by_cases h : p.1 = k
    · simp [aupsert, alookup, h]
    · simp [aupsert, alookup, h, ih]

theorem lookup_aupsert_ne {α β : Type} [DecidableEq α] {k k' : α} (v : β) (l : List (α × β))
    (h : k' ≠ k) : alookup k' (aupsert k v l) = alookup k' l := by
  have hkk' : ¬ k = k' := fun he => h he.symm
  induction l with
  | nil => simp [aupsert, alookup, hkk']
  | cons p t ih =>
    obtain ⟨a, b⟩ := p
    by_cases hp : a = k
    · subst hp
      simp [aupsert, alookup, hkk']
    · simp [aupsert, alookup, hp, ih]

theorem mem_of_mem_removeFirst {α : Type} [DecidableEq α] {a x : α} {l : List α}
    (h : a ∈ removeFirst x l) : a ∈ l := by
  induction l with
  | nil => simpa [removeFirst] using h
  | cons b t ih =>
    by_cases hb : b = x
    · simp only [removeFirst, if_pos hb] at h
      exact List.mem_cons_of_mem _ h
    · simp only [removeFirst, if_neg hb] at h
      rcases List.mem_cons.mp h with h1 | h2
      · exact h1 ▸ List.mem_cons_self _ _
      · exact List.mem_cons_of_mem _ (ih h2)

theorem nodup_removeFirst {α : Type} [DecidableEq α] (x : α) {l : List α}
    (h : l.Nodup) : (removeFirst x l).Nodup := by
  induction l with
  | nil => simpa [removeFirst] using h
  | cons b t ih =>
    rcases List.nodup_cons.mp h with ⟨hb, ht⟩
    by_cases hbx : b = x
    · simpa [removeFirst, hbx] using ht
    · simp only [removeFirst, if_neg hbx]
      exact List.nodup_cons.mpr ⟨fun hm => hb (mem_of_mem_removeFirst hm), ih ht⟩

theorem not_mem_removeFirst_self {α : Type} [DecidableEq α] {x : α} {l : List α}
    (h : l.Nodup) : x ∉ removeFirst x l := by
  induction l with
  | nil => simp [removeFirst]
  | cons b t ih =>
    rcases List.nodup_cons.mp h with ⟨hb, ht⟩
    by_cases hbx : b = x
    · subst hbx
      simpa [removeFirst] using hb
    · simp only [removeFirst, if_neg hbx, List.mem_cons]
      rintro (rfl | hm)
      · exact hbx rfl
      · exact ih ht hm

theorem exists_of_findSome? {α β : Type} {f : α → Option β} {l : List α} {b : β}
    (h : l.findSome? f = some b) : ∃ a ∈ l, f a = some b := by
  induction l with
  | nil => simp [List.findSome?] at h
  | cons a t ih =>
    rw [List.findSome?_cons] at h
    cases hf : f a with
    | some c =>
      rw [hf] at h
      exact ⟨a, List.mem_cons_self _ _, hf.trans h⟩
    | none =>
      rw [hf] at h
      rcases ih h with ⟨a', ha', hfa'⟩
      exact ⟨a', List.mem_cons_of_mem _ ha', hfa'⟩

theorem findSome?_eq_none_of {α β : Type} {f : α → Option β} {l : List α}
    (h : ∀ a ∈ l, f a = none) : l.findSome? f = none := by
  induction l with
  | nil => simp [List.findSome?]
  | cons a t ih =>
    rw [List.findSome?_cons, h a (List.mem_cons_self _ _)]
    exact ih (fun a' ha' => h a' (List.mem_cons_of_mem _ ha'))

theorem string_data_append (a b : String) : (a ++ b).data = a.data ++ b.data := rfl

theorem string_mk_data (s : String) : String.mk s.data = s := rfl

theorem takeWhile_append_all {p : Char → Bool} {l r : List Char}
    (h : ∀ c ∈ l, p c = true) : (l ++ r).takeWhile p = l ++ r.takeWhile p := by
  induction l with
  | nil => simp
  | cons a t ih =>
    have ha := h a (List.mem_cons_self _ _)
    simp only [List.cons_append, List.takeWhile_cons, ha, if_true]
    rw [ih (fun c hc => h c (List.mem_cons_of_mem _ hc))]

theorem dropWhile_append_all {p : Char → Bool} {l r : List Char}
    (h : ∀ c ∈ l, p c = true) : (l ++ r).dropWhile p = r.dropWhile p := by
  induction l with
  | nil => simp
  | cons a t ih =>
    have ha := h a (List.mem_cons_self _ _)
    simp only [List.cons_append, List.dropWhile_cons, ha, if_true]
    exact ih (fun c hc => h c (List.mem_cons_of_mem _ hc))

theorem isPrefixOf_append_self (l r : List Char) : l.isPrefixOf (l ++ r) = true := by
  induction l with
  | nil => simp [List.isPrefixOf]
  | cons a t ih => simp [List.isPrefixOf, ih]

theorem captureAfter_cons (tag : List Char) (c : Char) (cs : List Char) :
    captureAfter tag (c :: cs) =
      if tag.isPrefixOf (c :: cs) then
        (let rest := (c :: cs).drop tag.length
         let cap := rest.takeWhile (fun x => x != ']')
         if cap.isEmpty then captureAfter tag cs
         else if (rest.dropWhile (fun x => x != ']')).isEmpty then captureAfter tag cs
         else some cap)
      else captureAfter tag cs := rfl

theorem captureAfter_skip {tag : List Char} {c : Char} {cs : List Char}
    (h : tag.isPrefixOf (c :: cs) = false) :
    captureAfter tag (c :: cs) = captureAfter tag cs := by
  rw [captureAfter_cons, h]
  simp

theorem captureAfter_skip_clean {t' : List Char} {l rest : List Char}
    (hl : ∀ c ∈ l, c ≠ '[') :
    captureAfter ('[' :: t') (l ++ rest) = captureAfter ('[' :: t') rest := by
  induction l with
  | nil => simp
  | cons a s ih =>
    have ha : a ≠ '[' := hl a (List.mem_cons_self _ _)
    have hbeq : (('[' : Char) == a) = false := beq_eq_false_iff_ne.mpr (Ne.symm ha)
    have hpre : (('[' :: t').isPrefixOf (a :: (s ++ rest))) = false := by
      simp [List.isPrefixOf, hbeq]
    rw [List.cons_append, captureAfter_skip hpre,
        ih (fun c hc => hl c (List.mem_cons_of_mem _ hc))]

theorem captureAfter_hit {t0 : Char} {tt cap rest : List Char}
    (hne : cap ≠ []) (hcl : ∀ c ∈ cap, c ≠ ']') :
    captureAfter (t0 :: tt) ((t0 :: tt) ++ (cap ++ ']' :: rest)) = some cap := by
  have hcl' : ∀ c ∈ cap, (c != ']') = true := by
    intro c hc
    simpa [bne_iff_ne] using hcl c hc
  have hdrop : ((t0 :: tt) ++ (cap ++ ']' :: rest)).drop (t0 :: tt).length
      = cap ++ ']' :: rest := List.drop_left _ _
  have htake : ((cap ++ ']' :: rest).takeWhile (fun x => x != ']')) = cap := by
    rw [takeWhile_append_all hcl']
    simp [List.takeWhile_cons]
  have hdw : ((cap ++ ']' :: rest).dropWhile (fun x => x != ']')) = ']' :: rest := by
    rw [dropWhile_append_all hcl']
    simp [List.dropWhile_cons]
  rw [List.cons_append, captureAfter_cons]
  rw [show t0 :: (tt ++ (cap ++ ']' :: rest)) = (t0 :: tt) ++ (cap ++ ']' :: rest)
        from rfl] at *
  rw [isPrefixOf_append_self]
  simp only [if_true, hdrop, htake, hdw]
  obtain ⟨a, t, rfl⟩ := List.exists_cons_of_ne_nil hne
  simp [List.isEmpty]

/-- uuid characters are not square brackets. -/
theorem uuidChar_ne_brackets {c : Char} (h : uuidChar c = true) : c ≠ '[' ∧ c ≠ ']' := by
  constructor <;> rintro rfl <;> simp [uuidChar] at h <;> revert h <;> decide

theorem uuidLike_ne_nil {s : String} (h : uuidLike s = true) : s.data ≠ [] := by
  simp only [uuidLike, Bool.and_eq_true, Bool.not_eq_true'] at h
  intro he
  rw [he] at h
  simp [List.isEmpty] at h

theorem uuidLike_no_lbracket {s : String} (h : uuidLike s = true) :
    ∀ c ∈ s.data, c ≠ '[' := by
  simp only [uuidLike, Bool.and_eq_true] at h
  intro c hc
  exact (uuidChar_ne_brackets (List.all_eq_true.mp h.2 c hc)).1

theorem uuidLike_no_rbracket {s : String} (h : uuidLike s = true) :
    ∀ c ∈ s.data, c ≠ ']' := by
  simp only [uuidLike, Bool.and_eq_true] at h
  intro c hc
  exact (uuidChar_ne_brackets (List.all_eq_true.mp h.2 c hc)).2

/-- resolve_permission_request preserves the pending-queue invariant: the
resolved request leaves its queue, every other queued request is untouched. -/
theorem resolve_preserves_pendingInv (st : CState) (rid : String) (code uid now : Nat)
    (h : pendingInv st) : pendingInv (resolvePermissionRequest st rid code uid now) := by
  unfold resolvePermissionRequest
  cases hreq : alookup rid st.permission_requests with
  | none => simpa [hreq] using h
  | some req =>
    simp only [hreq]
    cases hpend : alookup req.session_id st.pending_requests with
    | none =>
      simp only [hpend]
      intro sid pend hl
      simp only at hl
      rcases h sid pend hl with ⟨hnd, hmem⟩
      refine ⟨hnd, fun r hr => ?_⟩
      rcases hmem r hr with ⟨q, hq, hqr, hqs⟩
      by_cases hrrid : r = rid
      · exfalso
        subst hrrid
        rw [hreq] at hq
        cases hq
        rw [hqs] at hpend
        rw [hpend] at hl
        exact Option.noConfusion hl
      · exact ⟨q, by rw [lookup_aupsert_ne _ _ hrrid]; exact hq, hqr, hqs⟩
    | some pend0 =>
      simp only [hpend]
      intro sid pend hl
      simp only at hl
      by_cases hsid : sid = req.session_id
      · subst hsid
        rw [lookup_aupsert_self] at hl
        cases hl
        rcases h _ pend0 hpend with ⟨hnd0, hmem0⟩
        refine ⟨nodup_removeFirst _ hnd0, fun r hr => ?_⟩
        have hrmem : r ∈ pend0 := mem_of_mem_removeFirst hr
        have hrne : r ≠ rid := by
          rintro rfl
          exact not_mem_removeFirst_self hnd0 hr
        rcases hmem0 r hrmem with ⟨q, hq, hqr, hqs⟩
        exact ⟨q, by rw [lookup_aupsert_ne _ _ hrne]; exact hq, hqr, hqs⟩
      · rw [lookup_aupsert_ne _ _ hsid] at hl
        rcases h sid pend hl with ⟨hnd, hmem⟩
        refine ⟨hnd, fun r hr => ?_⟩
        rcases hmem r hr with ⟨q, hq, hqr, hqs⟩
        have hrne : r ≠ rid := by
          rintro rfl
          rw [hreq] at hq
          cases hq
          exact hsid hqs.symm
        exact ⟨q, by rw [lookup_aupsert_ne _ _ hrne]; exact hq, hqr, hqs⟩

/-- Every branch of handle_reply either leaves the state alone or goes
through resolve_permission_request, so the pending-queue invariant is
preserved by the whole inbound-message handler. -/
theorem handleReply_preserves_pendingInv (allowed : List String) (st : CState) (uid : Nat)
    (text : String) (reply_to : Option String) (now : Nat) (h : pendingInv st) :
    pendingInv (handleReply allowed st uid text reply_to now).1 := by
  unfold handleReply handlePermissionReply
  split
  · exact h
  · split
    · split
      · exact h
      · exact resolve_preserves_pendingInv _ _ _ _ _ h
    · split
      · split
        · exact resolve_preserves_pendingInv _ _ _ _ _ h
        · exact h
      · split
        · exact h
        · split
          · cases alookup uid st.claimed_sessions <;> exact h
          · cases alookup uid st.claimed_sessions <;> exact h
          · cases alookup uid st.claimed_sessions <;> exact h

/-! Claim C1. -/

/-- Claim C1 counterexample: the code has no InvalidTransition error and does
not confine state changes to the claimed edge set.  Concretely: create and
start a session, cancel it (state CANCELLED), then let the read loop finish;
the completion path moves the CANCELLED session to COMPLETED, an edge outside
the claimed transition table. -/
theorem claim1_counterexample :
    let st1 := startSessionOk (createSession {} "s1" "sleep 100" "/tmp" [] 0) "s1" 42
    let st2 := (cancelCommand [] st1 7 "/cancel s1").1
    ((alookup "s1" st2.sessions).map Session.state = some "CANCELLED") ∧
    ((readPtyCompletion st2 "s1" 5).2.map Session.state = some "COMPLETED") ∧
    legalEdge "CANCELLED" "COMPLETED" = false := by
  decide

/-- Claim C1 (amended): session state changes are unvalidated direct
assignments and no InvalidTransition error exists.  cancel_command moves a
session to CANCELLED exactly when its state is RUNNING or WAITING_PERMISSION
and otherwise replies with an error message leaving the registry unchanged;
but the read-loop completion path moves any state other than COMPLETED and
FAILED — including CANCELLED — to COMPLETED. -/
theorem claim1_amended (allowed : List String) (st : CState) (uid : Nat)
    (text sid : String) (s : Session)
    (hauth : isAuthorized allowed uid = true)
    (hparts : pySplitOnce (pyStrip text) = ["/cancel", sid])
    (hs : alookup sid st.sessions = some s) :
    ((s.state = "RUNNING" ∨ s.state = "WAITING_PERMISSION") →
        cancelCommand allowed st uid text =
          ({ st with sessions := aupsert sid { s with state := "CANCELLED" } st.sessions },
           "Cancelled session " ++ sid)) ∧
    (¬ (s.state = "RUNNING" ∨ s.state = "WAITING_PERMISSION") →
        cancelCommand allowed st uid text =
          (st, "Session " ++ sid ++ " is not running or waiting for permission")) ∧
    (∀ st' : CState, ∀ sid' : String, ∀ now' : Nat, ∀ s' : Session,
        alookup sid' st'.sessions = some s' →
        s'.state ≠ "COMPLETED" → s'.state ≠ "FAILED" →
        ((readPtyCompletion st' sid' now').2.map Session.state) = some "COMPLETED") := by
  have hauth' : ¬ (isAuthorized allowed uid = false) := by simp [hauth]
  refine ⟨?_, ?_, ?_⟩
  · intro hstate
    unfold cancelCommand
    rw [if_neg hauth', hparts]
    simp only [hs]
    rw [if_pos hstate]
  · intro hstate
    unfold cancelCommand
    rw [if_neg hauth', hparts]
    simp only [hs]
    rw [if_neg hstate]
  · intro st' sid' now' s' hs' h1 h2
    unfold readPtyCompletion
    rw [hs']
    simp [h1, h2]

/-- Claim C1 witness: the amended theorem applied to a concrete running
session that the operator cancels. -/
theorem claim1_witness :
    ((cancelCommand [] (startSessionOk (createSession {} "s9" "c" "/" [] 0) "s9" 1) 7
        "/cancel s9").2 = "Cancelled session " ++ "s9") := by
  have h := claim1_amended []
      (startSessionOk (createSession {} "s9" "c" "/" [] 0) "s9" 1) 7 "/cancel s9" "s9"
      { session_id := "s9", command := "c", cwd := "/", env_summary := [],
        state := "RUNNING", start_time := 0, pid := some 1, pty_handle := some "pty" }
      (by decide) (by decide) (by decide)
  rw [h.1 (Or.inl rfl)]

/-! Claim C2. -/

/-- Claim C2 counterexample: a permission request is not immutable once
resolved.  After r1 is resolved with decision 1 by operator 5, a second
reply bound to the same prompt message (operator 6, digit 2) goes through
handle_permission_reply, which never checks the resolved flag, and
overwrites decision_code, decided_by and decided_at. -/
theorem claim2_counterexample :
    let st0 := startSessionOk (createSession {} "s1" "c" "/" [] 0) "s1" 42
    let cr := createPermissionRequest st0 "r1" "s1" "filesystem" "Read file q" 1
    let st1 := (handleReply [] cr.1 5 "1" (some cr.2) 2).1
    let st2 := (handleReply [] st1 6 "2" (some cr.2) 3).1
    ((alookup "r1" st1.permission_requests).map
        (fun r => (r.resolved, r.decision_code, r.decided_by, r.decided_at))
      = some (true, some 1, some "5", some 2)) ∧
    ((alookup "r1" st2.permission_requests).map
        (fun r => (r.resolved, r.decision_code, r.decided_by, r.decided_at))
      = some (true, some 2, some "6", some 3)) := by
  decide

/-- Claim C2 (amended): the queue half of the invariant holds — a session's
pending-request queue never contains a resolved request, and this is
preserved by every inbound-message broker operation (both resolution paths
and all rejection paths of handle_reply); but a resolved request's decision
fields are not immutable, since a reply-to-bound resolution does not check
the resolved flag and overwrites them. -/
theorem claim2_amended (allowed : List String) (st : CState) (uid : Nat)
    (text : String) (reply_to : Option String) (now : Nat)
    (h : pendingInv st) :
    pendingInv (handleReply allowed st uid text reply_to now).1 :=
  handleReply_preserves_pendingInv allowed st uid text reply_to now h

/-- Claim C2 witness: the amended theorem applied to a concrete state with
one pending request being resolved by a bare numeric reply. -/
theorem claim2_witness :
    pendingInv ((handleReply []
      (createPermissionRequest (createSession {} "s1" "c" "/" [] 0) "r1" "s1"
        "filesystem" "x" 1).1 6 "2" none 3).1) := by
  have hInv : pendingInv (createPermissionRequest (createSession {} "s1" "c" "/" [] 0)
      "r1" "s1" "filesystem" "x" 1).1 := by
    intro sid pend hl
    by_cases h1 : sid = "s1"
    · subst h1
      have hp : pend = ["r1"] := by
        have : some pend = some ["r1"] := by rw [← hl]; rfl
        exact (Option.some.injEq _ _ ▸ this).symm ▸ rfl
      subst hp
      refine ⟨by decide, ?_⟩
      intro rid hr
      have : rid = "r1" := by simpa using hr
      subst this
      exact ⟨_, rfl, rfl, rfl⟩
    · exfalso
      have : alookup sid (createPermissionRequest (createSession {} "s1" "c" "/" [] 0)
          "r1" "s1" "filesystem" "x" 1).1.pending_requests = none := by
        have h1' : ¬ ("s1" = sid) := fun he => h1 he.symm
        simp only [createPermissionRequest, createSession, alookup, aupsert]
        simp [h1']
      rw [this] at hl
      exact Option.noConfusion hl
  exact claim2_amended [] _ 6 "2" none 3 hInv

/-! Claim C3. -/

/-- Claim C3 counterexample: the reply-to-bound path does not validate the
decision code against the request's option set.  Replying 7 to the prompt
message of a request whose options are the default 1, 2, 3 resolves it with
decision 7. -/
theorem claim3_counterexample :
    let st0 := startSessionOk (createSession {} "s1" "c" "/" [] 0) "s1" 42
    let cr := createPermissionRequest st0 "r1" "s1" "filesystem" "Read file q" 1
    let out := handleReply [] cr.1 5 "7" (some cr.2) 2
    out.2 = RAction.permResolved "r1" 7 ∧
    ((alookup "r1" out.1.permission_requests).map
        (fun r => (r.resolved, r.decision_code, (optionCodes r).contains 7)))
      = some (true, some 7, false) := by
  decide

/-- Claim C3 (amended): only the bare-numeric path validates the digit
against the option set: whatever it resolves is an unresolved pending request
whose option set contains the code, and when no pending request's option set
contains the code nothing is resolved and no default is substituted (the
reply is answered with a no-pending-request message); the reply-to-bound
path accepts any digit string without validation. -/
theorem claim3_amended (allowed : List String) (st : CState) (uid : Nat)
    (text : String) (reply_to : Option String) (now : Nat)
    (hauth : isAuthorized allowed uid = true)
    (hrto : rtoPermTarget st reply_to = none)
    (hdig : isDigits text = true) :
    (∀ st' rid c, handleReply allowed st uid text reply_to now = (st', .permResolved rid c) →
        c = digitsToNat text ∧
        ∃ req, (rid, req) ∈ st.permission_requests ∧ req.resolved = false ∧
          (optionCodes req).contains c = true) ∧
    ((∀ p ∈ st.permission_requests, bareEligible st (digitsToNat text) p.1 p.2 = false) →
        handleReply allowed st uid text reply_to now = (st, .noPending)) := by
  have hauth' : ¬ (isAuthorized allowed uid = false) := by simp [hauth]
  constructor
  · intro st' rid c heq
    unfold handleReply at heq
    rw [if_neg hauth', hrto] at heq
    simp only [hdig, if_true] at heq
    cases hfind : findBareTarget st (digitsToNat text) with
    | none =>
      rw [hfind] at heq
      exact absurd (congrArg Prod.snd heq) (by simp)
    | some rid0 =>
      rw [hfind] at heq
      have h2 := congrArg Prod.snd heq
      simp only at h2
      cases h2
      rcases exists_of_findSome? hfind with ⟨p, hpmem, hp⟩
      by_cases hel : bareEligible st (digitsToNat text) p.1 p.2 = true
      · rw [if_pos hel] at hp
        cases hp
        refine ⟨rfl, p.2, ?_, ?_, ?_⟩
        · exact hpmem
        · have := hel
          unfold bareEligible at this
          simp only [Bool.and_eq_true, Bool.not_eq_true'] at this
          exact this.1.2
        · have := hel
          unfold bareEligible at this
          simp only [Bool.and_eq_true, Bool.not_eq_true'] at this
          exact this.2
      · rw [if_neg hel] at hp
        exact Option.noConfusion hp
  · intro hnone
    have hfind : findBareTarget st (digitsToNat text) = none := by
      apply findSome?_eq_none_of
      intro p hp
      rw [hnone p hp]
      rfl
    unfold handleReply
    rw [if_neg hauth', hrto]
    simp only [hdig, if_true, hfind]

/-- Claim C3 witness: the amended theorem applied to a pending request with
the default option set and the out-of-range bare digit 9, which is rejected
with a no-pending-request reply. -/
theorem claim3_witness :
    handleReply [] (createPermissionRequest (createSession {} "s1" "c" "/" [] 0) "r1" "s1"
      "filesystem" "x" 1).1 5 "9" none 2 =
    ((createPermissionRequest (createSession {} "s1" "c" "/" [] 0) "r1" "s1"
      "filesystem" "x" 1).1, .noPending) := by
  exact (claim3_amended [] _ 5 "9" none 2 (by decide) (by decide) (by decide)).2
    (by decide)

/-! Claim C5. -/

theorem string_length_data (s : String) : s.length = s.data.length := rfl

theorem data_mk (l : List Char) : (String.mk l).data = l := rfl

theorem formatChunk_length (sid stream text : String) :
    (formatChunk sid stream text).length = 9 + sid.length + stream.length + text.length := by
  have h1 : "[SID:".data.length = 5 := rfl
  have h2 : "] ".data.length = 2 := rfl
  have h3 : ": ".data.length = 2 := rfl
  simp only [formatChunk, string_length_data, string_data_append, List.length_append,
    pyUpper, data_mk, List.length_map, h1, h2, h3]
  omega

/-- Oversized text is cut to the configured maximum minus ten characters and
the twelve-character truncation marker is appended, so the sent length is
exactly the maximum plus two. -/
theorem truncate_length (t : String) (h : t.length > OUTPUT_MAX_CHARS) :
    (truncateForSend t).length = OUTPUT_MAX_CHARS + 2 := by
  unfold truncateForSend
  rw [if_pos h]
  rw [string_length_data, string_data_append, List.length_append]
  rw [show (String.mk (t.data.take (OUTPUT_MAX_CHARS - 10))).data
        = t.data.take (OUTPUT_MAX_CHARS - 10) from rfl]
  rw [List.length_take]
  rw [show (" [TRUNCATED]".data.length = 12) from rfl]
  have ht : t.data.length = t.length := rfl
  simp only [OUTPUT_MAX_CHARS] at h ⊢
  omega

/-- Claim C5 counterexample: a flushed message of formatted length 3501 is
sent with length 3502, exceeding the configured maximum of 3500, because the
truncation marker appended after the cut is twelve characters long. -/
theorem claim5_counterexample :
    (sendOutputText "s" "stdout" (String.mk (List.replicate 3485 'a'))).length
        = OUTPUT_MAX_CHARS + 2 ∧
    ¬ ((sendOutputText "s" "stdout" (String.mk (List.replicate 3485 'a'))).length
        ≤ OUTPUT_MAX_CHARS) := by
  have hlen : (formatChunk "s" "stdout" (String.mk (List.replicate 3485 'a'))).length
      > OUTPUT_MAX_CHARS := by
    rw [formatChunk_length]
    simp only [string_length_data, data_mk, List.length_replicate, OUTPUT_MAX_CHARS]
    norm_num
  constructor
  · exact truncate_length _ hlen
  · rw [show sendOutputText "s" "stdout" (String.mk (List.replicate 3485 'a'))
          = truncateForSend (formatChunk "s" "stdout" (String.mk (List.replicate 3485 'a')))
        from rfl]
    rw [truncate_length _ hlen]
    decide

/-- Claim C5 (amended): a flushed outbound message whose formatted text
exceeds OUTPUT_MAX_CHARS is cut to maximum minus ten characters plus the
truncation marker, and the total sent length is exactly the maximum plus two
(the marker is twelve characters), hence not bounded by the maximum. -/
theorem claim5_amended (session_id stream text : String)
    (h : (formatChunk session_id stream text).length > OUTPUT_MAX_CHARS) :
    (sendOutputText session_id stream text).length = OUTPUT_MAX_CHARS + 2 :=
  truncate_length _ h

/-- Claim C5 witness: the amended theorem applied to a 4000-character chunk. -/
theorem claim5_witness :
    (sendOutputText "q" "stdout" (String.mk (List.replicate 4000 'b'))).length
        = OUTPUT_MAX_CHARS + 2 :=
  claim5_amended "q" "stdout" (String.mk (List.replicate 4000 'b')) (by
    rw [formatChunk_length]
    simp only [string_length_data, data_mk, List.length_replicate, OUTPUT_MAX_CHARS]
    norm_num)

/-! Claim C6. -/

/-- Claim C6 counterexample: a stderr chunk is relayed immediately, but it is
also appended to the session's output buffer, so the next stdout debounce
flush re-delivers the stderr text inside the combined stdout message. -/
theorem claim6_counterexample :
    let st0 := startSessionOk (createSession {} "s1" "c" "/" [] 0) "s1" 42
    let r1 := handleOutputChunk st0 "s1" "stderr" "err" "rX" 1
    let r2 := handleOutputChunk r1.1 "s1" "stdout" "out" "rY" 2
    let fl := flushOutput r2.1 "s1"
    r1.2.immediate = some "err" ∧ r1.2.timerRestart = false ∧
    fl.2 = some "err\nout" ∧
    containsSub "err".data "err\nout".data = true := by
  decide

/-- Claim C6 (amended): a stderr chunk is relayed to the operator immediately
and never touches the debounce timer, and it creates no permission request;
but it is also appended to the session's output buffer (before the stream
check), so it can be re-delivered by a later flush of the buffer. -/
theorem claim6_amended (st : CState) (session_id text fresh_rid : String) (now : Nat) :
    ((handleOutputChunk st session_id "stderr" text fresh_rid now).2.immediate
        = some (String.mk (stripAnsi text.data))) ∧
    ((handleOutputChunk st session_id "stderr" text fresh_rid now).2.timerRestart = false) ∧
    ((handleOutputChunk st session_id "stderr" text fresh_rid now).2.prompt = none) ∧
    (alookup session_id
        (handleOutputChunk st session_id "stderr" text fresh_rid now).1.output_buffers
      = some ((alookup session_id st.output_buffers).getD []
              ++ [String.mk (stripAnsi text.data)])) ∧
    ((handleOutputChunk st session_id "stderr" text fresh_rid now).1.permission_requests
        = st.permission_requests) := by
  unfold handleOutputChunk
  simp [STRIP_ANSI, lookup_aupsert_self]

/-! Claim C7. -/

/-- Claim C7: flush_output with an absent or empty buffer is a silent no-op
(state unchanged, nothing sent); with a nonempty buffer it forwards exactly
the buffered chunks joined by newline, in append order, and leaves an empty
buffer behind without touching the other registries. -/
theorem claim7_flush_spec (st : CState) (sid : String) :
    ((alookup sid st.output_buffers = none ∨ alookup sid st.output_buffers = some []) →
        flushOutput st sid = (st, none)) ∧
    (∀ c cs, alookup sid st.output_buffers = some (c :: cs) →
        (flushOutput st sid).2 = some (String.intercalate "\n" (c :: cs)) ∧
        alookup sid (flushOutput st sid).1.output_buffers = some [] ∧
        (flushOutput st sid).1.sessions = st.sessions ∧
        (flushOutput st sid).1.permission_requests = st.permission_requests ∧
        (flushOutput st sid).1.pending_requests = st.pending_requests) := by
  constructor
  · rintro (h | h) <;> unfold flushOutput <;> rw [h]
  · intro c cs h
    unfold flushOutput
    rw [h]
    exact ⟨rfl, lookup_aupsert_self _ _ _, rfl, rfl, rfl⟩

/-- Claim C7 witness: a buffer holding chunks a then b flushes a-newline-b
and is left empty; an empty buffer flushes nothing and changes nothing. -/
theorem claim7_witness :
    (flushOutput { output_buffers := [("s", ["a", "b"])] } "s").2 = some "a\nb" ∧
    alookup "s" (flushOutput { output_buffers := [("s", ["a", "b"])] } "s").1.output_buffers
      = some [] ∧
    flushOutput ({} : CState) "s" = ({}, none) := by
  refine ⟨?_, ?_, ?_⟩
  · rw [((claim7_flush_spec { output_buffers := [("s", ["a", "b"])] } "s").2 "a" ["b"]
        (by decide)).1]
    decide
  · exact ((claim7_flush_spec { output_buffers := [("s", ["a", "b"])] } "s").2 "a" ["b"]
        (by decide)).2.1
  · exact (claim7_flush_spec {} "s").1 (Or.inl (by decide))

/-! Claim C8. -/

/-- Claim C8: a free-form non-numeric inbound text with no reply-to binding
(neither a permission-request binding nor a session token) and no claim-map
entry for the operator is rejected when no session is active, delivered to
the unique active session when exactly one is active, and rejected as
ambiguous with no forwarding when several are active. -/
theorem claim8_routing (allowed : List String) (st : CState) (uid : Nat) (text : String)
    (reply_to : Option String) (now : Nat)
    (hauth : isAuthorized allowed uid = true)
    (hperm : rtoPermTarget st reply_to = none)
    (hdig : isDigits text = false)
    (hbind : rtoSid reply_to = none)
    (hclaim : alookup uid st.claimed_sessions = none) :
    (activeSessions st = [] →
        handleReply allowed st uid text reply_to now = (st, .noActive)) ∧
    (∀ sid, activeSessions st = [sid] →
        handleReply allowed st uid text reply_to now = (st, .forwarded sid text)) ∧
    (∀ a b l, activeSessions st = a :: b :: l →
        handleReply allowed st uid text reply_to now = (st, .ambiguous)) := by
  have hauth' : ¬ (isAuthorized allowed uid = false) := by simp [hauth]
  have hdig' : ¬ (isDigits text = true) := by simp [hdig]
  refine ⟨?_, ?_, ?_⟩
  · intro h'
    unfold handleReply
    rw [if_neg hauth', hperm, if_neg hdig']
    simp only [hbind, hclaim, h']
  · intro sid h'
    unfold handleReply
    rw [if_neg hauth', hperm, if_neg hdig']
    simp only [hbind, hclaim, h']
  · intro a b l h'
    unfold handleReply
    rw [if_neg hauth', hperm, if_neg hdig']
    simp only [hbind, hclaim, h']

/-- Claim C8 witness: the three routing outcomes on concrete registries with
zero, one and two running sessions. -/
theorem claim8_witness :
    (handleReply [] (startSessionOk (createSession {} "s1" "c" "/" [] 0) "s1" 1) 7
        "hello" none 0 =
      ((startSessionOk (createSession {} "s1" "c" "/" [] 0) "s1" 1), .forwarded "s1" "hello")) ∧
    (handleReply [] ({} : CState) 7 "hello" none 0 = ({}, .noActive)) ∧
    (handleReply []
        (startSessionOk (startSessionOk
          (createSession (createSession {} "s1" "c" "/" [] 0) "s2" "c" "/" [] 0)
          "s1" 1) "s2" 2) 7 "hello" none 0 =
      ((startSessionOk (startSessionOk
          (createSession (createSession {} "s1" "c" "/" [] 0) "s2" "c" "/" [] 0)
          "s1" 1) "s2" 2), .ambiguous)) := by
  refine ⟨?_, ?_, ?_⟩
  · exact (claim8_routing [] _ 7 "hello" none 0 (by decide) (by decide) (by decide)
      (by decide) (by decide)).2.1 "s1" (by decide)
  · exact (claim8_routing [] _ 7 "hello" none 0 (by decide) (by decide) (by decide)
      (by decide) (by decide)).1 (by decide)
  · exact (claim8_routing [] _ 7 "hello" none 0 (by decide) (by decide) (by decide)
      (by decide) (by decide)).2.2 "s1" "s2" [] (by decide)

/-! Claim C9. -/

/-- Claim C9 counterexample: start_command and help_command are registered
command handlers with no authorization gate: an operator outside a nonempty
allowlist still receives their normal replies, not an Unauthorized
rejection. -/
theorem claim9_counterexample :
    isAuthorized ["1"] 2 = false ∧
    startCommand {} 2
      = ({}, "CLAUDE bot is running! Send numeric replies to permission requests.") ∧
    helpCommand {} 2 = ({}, helpText) ∧
    helpText ≠ "Unauthorized" ∧
    "CLAUDE bot is running! Send numeric replies to permission requests."
      ≠ "Unauthorized" := by
  refine ⟨by decide, rfl, rfl, by decide, by decide⟩

/-- Claim C9 (amended): with a nonempty allowlist, every inbound command
with an authorization gate — status, sessions, send, claim, release, cancel,
keys, and the free-text reply handler — rejects an unlisted operator with an
explicit Unauthorized message and no side effect on any registry; the start
and help handlers lack the gate and answer with their informational text
(also without side effects). -/
theorem claim9_amended (allowed : List String) (st : CState) (uid : Nat) (text : String)
    (reply_to : Option String) (now : Nat)
    (h : isAuthorized allowed uid = false) :
    statusCommand allowed st uid = (st, "Unauthorized") ∧
    sessionsCommand allowed st uid = (st, "Unauthorized") ∧
    sendCommand allowed st uid text now = (st, "Unauthorized") ∧
    claimCommand allowed st uid text = (st, "Unauthorized") ∧
    releaseCommand allowed st uid = (st, "Unauthorized") ∧
    cancelCommand allowed st uid text = (st, "Unauthorized") ∧
    keysCommand allowed st uid text = (st, some "Unauthorized") ∧
    handleReply allowed st uid text reply_to now = (st, .unauthorized) ∧
    startCommand st uid = (st,
      "CLAUDE bot is running! Send numeric replies to permission requests.") ∧
    helpCommand st uid = (st, helpText) := by
  unfold statusCommand sessionsCommand sendCommand claimCommand releaseCommand
    cancelCommand keysCommand handleReply startCommand helpCommand
  simp [h]

/-- Claim C9 witness: the amended theorem at a one-entry allowlist and an
unlisted operator. -/
theorem claim9_witness :
    cancelCommand ["1"] {} 2 "/cancel s1" = ({}, "Unauthorized") ∧
    handleReply ["1"] {} 2 "hello" none 0 = ({}, .unauthorized) := by
  have h := claim9_amended ["1"] {} 2 "/cancel s1" none 0 (by decide)
  have h2 := claim9_amended ["1"] {} 2 "hello" none 0 (by decide)
  exact ⟨h.2.2.2.2.2.1, h2.2.2.2.2.2.2.2.1⟩

/-! Claim C10: token round-trip lemmas. -/

/-- The prompt text split at the two embedded tokens. -/
theorem promptText_data (rid sid summary : String) :
    (promptText rid sid summary).data =
      "\n🛡️ Permission request ".data ++
        ("[RID:".data ++ (rid.data ++ (']' ::
          ("[SID:".data ++ (sid.data ++ (']' :: promptTail summary)))))) := by
  have hA : ("\n🛡️ Permission request [RID:").data
      = "\n🛡️ Permission request ".data ++ "[RID:".data := by decide
  have hB : ("][SID:").data = ']' :: "[SID:".data := by decide
  have hC : ("]\n\n").data = ']' :: "\n\n".data := by decide
  simp only [promptText, promptTail, string_data_append, hA, hB, hC,
    List.append_assoc, List.cons_append, List.nil_append]

theorem isPrefixOf_extend {n s r : List Char} (h : n.isPrefixOf s = true) :
    n.isPrefixOf (s ++ r) = true := by
  induction n generalizing s with
  | nil => simp [List.isPrefixOf]
  | cons a t ih =>
    cases s with
    | nil => simp [List.isPrefixOf] at h
    | cons b s' =>
      simp only [List.isPrefixOf, Bool.and_eq_true] at h
      simp only [List.cons_append, List.isPrefixOf, Bool.and_eq_true]
      exact ⟨h.1, ih h.2⟩

theorem containsSub_nil_needle (r : List Char) : containsSub [] r = true := by
  cases r <;> simp [containsSub, List.isPrefixOf, List.isEmpty]

theorem containsSub_append_left {n l r : List Char} (h : containsSub n l = true) :
    containsSub n (l ++ r) = true := by
  induction l with
  | nil =>
    simp only [containsSub] at h
    have hn : n = [] := by
      cases n
      · rfl
      · simp [List.isEmpty] at h
    subst hn
    simpa using containsSub_nil_needle r
  | cons a l' ih =>
    simp only [containsSub, Bool.or_eq_true] at h
    rcases h with h | h
    · simp only [List.cons_append, containsSub, Bool.or_eq_true]
      exact Or.inl (isPrefixOf_extend h)
    · simp only [List.cons_append, containsSub, Bool.or_eq_true]
      exact Or.inr (ih h)

/-- The words Permission request occur in every prompt (inside the concrete
prefix before the tokens). -/
theorem prompt_contains_permreq (rid sid summary : String) :
    containsSub "Permission request".data (promptText rid sid summary).data = true := by
  rw [promptText_data]
  exact containsSub_append_left (by decide)

/-- extract_request_id recovers the request id from the prompt text. -/
theorem extract_rid_prompt {rid : String} (sid summary : String)
    (hr : uuidLike rid = true) :
    extractRequestId (promptText rid sid summary) = some rid := by
  unfold extractRequestId
  rw [promptText_data]
  have hP0 : ∀ c ∈ "\n🛡️ Permission request ".data, c ≠ '[' := by decide
  rw [show "[RID:".data = '[' :: "RID:".data from rfl]
  rw [captureAfter_skip_clean hP0]
  rw [captureAfter_hit (fun he => uuidLike_ne_nil hr he) (uuidLike_no_rbracket hr)]
  rfl

/-- extract_session_id recovers the session id from the prompt text. -/
theorem extract_sid_prompt {rid sid : String} (summary : String)
    (hr : uuidLike rid = true) (hs : uuidLike sid = true) :
    extractSessionId (promptText rid sid summary) = some sid := by
  unfold extractSessionId
  rw [promptText_data]
  have hP0 : ∀ c ∈ "\n🛡️ Permission request ".data, c ≠ '[' := by decide
  rw [show "[SID:".data = '[' :: "SID:".data from rfl]
  rw [captureAfter_skip_clean hP0]
  rw [show "[RID:".data ++ (rid.data ++ (']' ::
        (('[' :: "SID:".data) ++ (sid.data ++ (']' :: promptTail summary)))))
      = '[' :: ("RID:".data ++ (rid.data ++ (']' ::
        (('[' :: "SID:".data) ++ (sid.data ++ (']' :: promptTail summary))))))
      from rfl]
  rw [captureAfter_skip (by
    show (('[' :: 'S' :: "ID:".data).isPrefixOf
        ('[' :: 'R' :: ("ID:".data ++ (rid.data ++ (']' ::
          (('[' :: "SID:".data) ++ (sid.data ++ (']' :: promptTail summary)))))))) = false
    simp only [List.isPrefixOf]
    rw [show (('S' : Char) == 'R') = false from rfl]
    simp)]
  have hclean : ∀ c ∈ ("RID:".data ++ rid.data ++ [']']), c ≠ '[' := by
    have hlit : ∀ c ∈ "RID:".data, c ≠ '[' := by decide
    intro c hc
    rcases List.mem_append.mp hc with h1 | h4
    · rcases List.mem_append.mp h1 with h2 | h3
      · exact hlit c h2
      · exact uuidLike_no_lbracket hr c h3
    · have hc' : c = ']' := by simpa using h4
      subst hc'
      decide
  rw [show "RID:".data ++ (rid.data ++ (']' ::
        (('[' :: "SID:".data) ++ (sid.data ++ (']' :: promptTail summary)))))
      = ("RID:".data ++ rid.data ++ [']']) ++
        (('[' :: "SID:".data) ++ (sid.data ++ (']' :: promptTail summary)))
      by simp [List.append_assoc]]
  rw [captureAfter_skip_clean hclean]
  rw [captureAfter_hit (fun he => uuidLike_ne_nil hs he) (uuidLike_no_rbracket hs)]
  rfl

/-- Claim C10: for permission requests whose request and session ids are
uuid strings (so they contain no square brackets), the prompt built by
send_permission_request embeds the RID and SID tokens, and applying
extract_request_id and extract_session_id to that prompt text returns
exactly the request id and the session id. -/
theorem claim10_roundtrip (rid sid summary : String)
    (hr : uuidLike rid = true) (hs : uuidLike sid = true) :
    extractRequestId (promptText rid sid summary) = some rid ∧
    extractSessionId (promptText rid sid summary) = some sid :=
  ⟨extract_rid_prompt sid summary hr, extract_sid_prompt summary hr hs⟩

/-- Claim C10 witness: the round-trip at concrete uuid-shaped ids. -/
theorem claim10_witness :
    uuidLike "0a1b-2c3d" = true ∧ uuidLike "4e5f-6071" = true ∧
    extractRequestId (promptText "0a1b-2c3d" "4e5f-6071" "Execute command rm")
      = some "0a1b-2c3d" ∧
    extractSessionId (promptText "0a1b-2c3d" "4e5f-6071" "Execute command rm")
      = some "4e5f-6071" :=
  ⟨by decide, by decide,
   (claim10_roundtrip "0a1b-2c3d" "4e5f-6071" "Execute command rm"
      (by decide) (by decide)).1,
   (claim10_roundtrip "0a1b-2c3d" "4e5f-6071" "Execute command rm"
      (by decide) (by decide)).2⟩


/-! Claim C4. -/

/-- The request map after resolve_permission_request of a stored request:
the stored record is stamped with the decision in place. -/
theorem resolve_requests_eq (st : CState) (rid : String) (code uid now : Nat)
    (req : PermissionRequest) (h : alookup rid st.permission_requests = some req) :
    (resolvePermissionRequest st rid code uid now).permission_requests
      = aupsert rid { req with
          resolved := true, decision_code := some code,
          decided_by := some (toString uid), decided_at := some now }
          st.permission_requests := by
  unfold resolvePermissionRequest
  simp only [h]
  cases hpend : alookup req.session_id st.pending_requests <;> simp [hpend]

/-- Claim C4: with two unresolved pending requests R1 (created first, hence
earlier in the registry's insertion order) and R2, both of whose option sets
contain the code n, a bare numeric reply resolves R1 — the first eligible
request in FIFO creation order across all sessions — leaving R2 untouched;
while a numeric reply bound by reply-to to the prompt message carrying R2's
RID token resolves exactly R2, regardless of FIFO order, leaving R1
untouched. -/
theorem claim4_correlation (allowed : List String) (st : CState) (uid : Nat)
    (text rid1 rid2 summary : String) (r1 r2 : PermissionRequest)
    (pend1 pend2 : List String) (n : Nat) (now : Nat)
    (hauth : isAuthorized allowed uid = true)
    (hreqs : st.permission_requests = [(rid1, r1), (rid2, r2)])
    (hne : rid1 ≠ rid2)
    (hp1 : alookup r1.session_id st.pending_requests = some pend1)
    (hm1 : pend1.contains rid1 = true)
    (hp2 : alookup r2.session_id st.pending_requests = some pend2)
    (hm2 : pend2.contains rid2 = true)
    (hu1 : r1.resolved = false) (hu2 : r2.resolved = false)
    (ho1 : (optionCodes r1).contains n = true)
    (ho2 : (optionCodes r2).contains n = true)
    (hdig : isDigits text = true) (hval : digitsToNat text = n)
    (hrid2 : uuidLike rid2 = true) :
    (handleReply allowed st uid text none now
        = (resolvePermissionRequest st rid1 n uid now, .permResolved rid1 n) ∧
      alookup rid1 (resolvePermissionRequest st rid1 n uid now).permission_requests
        = some { r1 with
                   resolved := true, decision_code := some n,
                   decided_by := some (toString uid), decided_at := some now } ∧
      alookup rid2 (resolvePermissionRequest st rid1 n uid now).permission_requests
        = some r2) ∧
    (handleReply allowed st uid text (some (promptText rid2 r2.session_id summary)) now
        = (resolvePermissionRequest st rid2 n uid now, .permResolved rid2 n) ∧
      alookup rid2 (resolvePermissionRequest st rid2 n uid now).permission_requests
        = some { r2 with
                   resolved := true, decision_code := some n,
                   decided_by := some (toString uid), decided_at := some now } ∧
      alookup rid1 (resolvePermissionRequest st rid2 n uid now).permission_requests
        = some r1) := by
  have hauth' : ¬ (isAuthorized allowed uid = false) := by simp [hauth]
  have halook1 : alookup rid1 st.permission_requests = some r1 := by
    rw [hreqs]
    simp [alookup]
  have halook2 : alookup rid2 st.permission_requests = some r2 := by
    rw [hreqs]
    simp [alookup, hne]
  have hres1 := resolve_requests_eq st rid1 n uid now r1 halook1
  have hres2 := resolve_requests_eq st rid2 n uid now r2 halook2
  constructor
  · have hel1 : bareEligible st n rid1 r1 = true := by
      have hm1' : rid1 ∈ pend1 := by simpa using hm1
      have ho1' : n ∈ optionCodes r1 := by simpa using ho1
      unfold bareEligible
      rw [hp1]
      simp [hm1', hu1, ho1']
    have hfind : findBareTarget st n = some rid1 := by
      unfold findBareTarget
      rw [hreqs, List.findSome?_cons]
      simp [hel1]
    refine ⟨?_, ?_, ?_⟩
    · unfold handleReply
      rw [if_neg hauth']
      rw [show rtoPermTarget st none = none from rfl]
      rw [if_pos hdig, hval, hfind]
    · rw [hres1, lookup_aupsert_self]
    · rw [hres1, lookup_aupsert_ne _ _ (Ne.symm hne), halook2]
  · have hrtoP : rtoPermTarget st (some (promptText rid2 r2.session_id summary))
        = some rid2 := by
      simp only [rtoPermTarget, prompt_contains_permreq, if_true,
        extract_rid_prompt r2.session_id summary hrid2, halook2, Option.isSome_some]
      rw [if_pos (prompt_contains_permreq rid2 r2.session_id summary)]
    refine ⟨?_, ?_, ?_⟩
    · unfold handleReply
      rw [if_neg hauth']
      simp only [hrtoP]
      unfold handlePermissionReply
      rw [if_neg (show ¬ (isDigits text = false) by simp [hdig]), hval]
    · rw [hres2, lookup_aupsert_self]
    · rw [hres2, lookup_aupsert_ne _ _ hne, halook1]

/-- Claim C4 witness: two concrete pending requests aaa1 (older) and bbb2;
the bare digit 3 resolves aaa1, a reply bound to bbb2's prompt resolves
bbb2. -/
theorem claim4_witness :
    ((handleReply []
        (createPermissionRequest (createPermissionRequest
          (startSessionOk (startSessionOk (createSession (createSession {} "s1" "c" "/" [] 0)
            "s2" "c" "/" [] 0) "s1" 1) "s2" 2)
          "aaa1" "s1" "filesystem" "x" 3).1 "bbb2" "s2" "filesystem" "y" 4).1
        7 "3" none 9).2 = .permResolved "aaa1" 3) ∧
    ((handleReply []
        (createPermissionRequest (createPermissionRequest
          (startSessionOk (startSessionOk (createSession (createSession {} "s1" "c" "/" [] 0)
            "s2" "c" "/" [] 0) "s1" 1) "s2" 2)
          "aaa1" "s1" "filesystem" "x" 3).1 "bbb2" "s2" "filesystem" "y" 4).1
        7 "3" (some (promptText "bbb2" "s2" "y")) 9).2 = .permResolved "bbb2" 3) := by
  have h := claim4_correlation []
      (createPermissionRequest (createPermissionRequest
        (startSessionOk (startSessionOk (createSession (createSession {} "s1" "c" "/" [] 0)
          "s2" "c" "/" [] 0) "s1" 1) "s2" 2)
        "aaa1" "s1" "filesystem" "x" 3).1 "bbb2" "s2" "filesystem" "y" 4).1
      7 "3" "aaa1" "bbb2" "y"
      { request_id := "aaa1", session_id := "s1", category := "filesystem",
        summary := "x", created_at := 3 }
      { request_id := "bbb2", session_id := "s2", category := "filesystem",
        summary := "y", created_at := 4 }
      ["aaa1"] ["bbb2"] 3 9
      (by decide) (by decide) (by decide) (by decide) (by decide) (by decide)
      (by decide) (by decide) (by decide) (by decide) (by decide) (by decide)
      (by decide) (by decide)
  exact ⟨by rw [h.1.1], by rw [h.2.1]⟩

end Clawbot
